import Mathlib

set_option maxRecDepth 100000

/-!
Verification of the Flood_Monitor pipeline (flood_pipeline + dashboard).

Shallow embedding conventions:
* Missing / NaN float values are modelled as `Option ℚ` (`none` = NaN);
  defined floats are exact rationals.  Float arithmetic propagates NaN and
  every comparison involving NaN is false, which the `f*` operations below
  reproduce.  Division by zero yields `none`; every use in the sources is
  guarded (the 1e-9 range check), so the branch is unreachable there.
* Dates are days on a linear time axis, modelled as `ℤ` (Python
  `date - timedelta(days=6)` is plain subtraction on that axis).
* pandas `Series.min()/max()/mean()` skip NaN entries; an all-NaN series
  yields NaN.  `clip` leaves NaN unchanged.
-/

/-- A float value that may be NaN/missing (`none` = NaN). -/
abbrev FVal := Option ℚ

/-- NaN-propagating addition. -/
def fadd : FVal → FVal → FVal
  | some a, some b => some (a + b)
  | _, _ => none

/-- NaN-propagating subtraction. -/
def fsub : FVal → FVal → FVal
  | some a, some b => some (a - b)
  | _, _ => none

/-- NaN-propagating multiplication. -/
def fmul : FVal → FVal → FVal
  | some a, some b => some (a * b)
  | _, _ => none

/-- NaN-propagating division; a zero divisor also gives `none`
(unreachable in the sources: every division is range-guarded). -/
def fdiv : FVal → FVal → FVal
  | some a, some b => if b = 0 then none else some (a / b)
  | _, _ => none

/-- NaN-propagating absolute value. -/
def fabs : FVal → FVal := Option.map (fun q => |q|)

/-- Float `<` as a Boolean: any comparison with NaN is false. -/
def fltB : FVal → FVal → Bool
  | some a, some b => decide (a < b)
  | _, _ => false

/-- pandas `Series.clip(lower=0.0, upper=1.0)`: clamps defined values,
leaves NaN as NaN. -/
def fclip01 : FVal → FVal
  | some q => some (min 1 (max 0 q))
  | none => none

/-- pandas `Series.min()`: minimum over the non-NaN entries, NaN if none. -/
def fseriesMin (xs : List FVal) : FVal := (xs.filterMap id).min?

/-- pandas `Series.max()`: maximum over the non-NaN entries, NaN if none. -/
def fseriesMax (xs : List FVal) : FVal := (xs.filterMap id).max?

/-- pandas `Series.mean()`: mean of the non-NaN entries, NaN if none. -/
def fmean (xs : List FVal) : FVal :=
  let v := xs.filterMap id
  if v.isEmpty then none else some (v.sum / v.length)

/-- Mean of an all-defined column, NaN on an empty column
(`pandas` group means; groups are always nonempty). -/
def qmeanF (l : List ℚ) : FVal :=
  if l.isEmpty then none else some (l.sum / l.length)

/-- The `1e-9` degenerate-range guard of both normalizers. -/
def eps9 : ℚ := 1e-9

/-- `src/flood_pipeline/csv_processing.py::_minmax`:
takes `float(series.min())`, `float(series.max())`; if
`abs(max - min) < 1e-9` returns an all-`0.0` series, else
`(series - min) / (max - min)`.  Note: no NaN guard — an all-NaN series
falls into the `else` branch and stays NaN. -/
def _minmax (xs : List FVal) : List FVal :=
  let min_val := fseriesMin xs
  let max_val := fseriesMax xs
  if fltB (fabs (fsub max_val min_val)) (some eps9) then
    xs.map (fun _ => some 0)
  else
    xs.map (fun x => fdiv (fsub x min_val) (fsub max_val min_val))

/-- `dashboard/streamlit_app.py::_minmax_numeric`:
like `_minmax` but explicitly returns the all-`0.0` series when the
minimum or maximum is NaN (`pd.isna`) as well. -/
def _minmax_numeric (xs : List FVal) : List FVal :=
  let min_val := fseriesMin xs
  let max_val := fseriesMax xs
  if min_val.isNone || max_val.isNone ||
      fltB (fabs (fsub max_val min_val)) (some eps9) then
    xs.map (fun _ => some 0)
  else
    xs.map (fun x => fdiv (fsub x min_val) (fsub max_val min_val))

/-! ## Tabular data model and the CSV loader
(`src/flood_pipeline/csv_ingestion.py`) -/

/-- A raw CSV row after column parsing: any field of a row may have failed
to coerce (`none` = NaN).  The required columns themselves are present by
construction (the `REQUIRED_COLUMNS` check precedes this stage). -/
structure RawRow where
  date : Option ℤ
  province : Option String
  rainfall_mm : Option ℚ
  water_level_m : Option ℚ
  temperature_c : Option ℚ
  humidity_percent : Option ℚ
  is_flood : Option ℚ
deriving DecidableEq, Repr

/-- A cleaned event row: `date`, `rainfall_mm`, `water_level_m`, `is_flood`
are guaranteed defined, the remaining numeric fields may still be NaN. -/
structure Row where
  date : ℤ
  province : String
  rainfall_mm : ℚ
  water_level_m : ℚ
  temperature_c : FVal
  humidity_percent : FVal
  is_flood : ℚ
deriving DecidableEq, Repr

/-- numpy `astype(int)` on a float: truncation toward zero. -/
def truncInt (q : ℚ) : ℤ := if q < 0 then ⌈q⌉ else ⌊q⌋

/-- `is_flood.astype(int).clip(lower=0, upper=1)`. -/
def clipFlag (q : ℚ) : ℚ := ((min 1 (max 0 (truncInt q)) : ℤ) : ℚ)

/-- `load_mockup_flood_dataset` row cleaning: `province` is
`astype(str).str.strip()` (a NaN becomes the literal string `"nan"`, so it
is never dropped); rows whose `date`, `rainfall_mm`, `water_level_m` or
`is_flood` failed to coerce are dropped; the flood flag is truncated to an
integer and clamped to `{0,1}`. -/
def cleanRows (raw : List RawRow) : List Row :=
  raw.filterMap fun r =>
    match r.date, r.rainfall_mm, r.water_level_m, r.is_flood with
    | some d, some rain, some w, some fl =>
        some { date := d
               province := (r.province.getD "nan").trim
               rainfall_mm := rain
               water_level_m := w
               temperature_c := r.temperature_c
               humidity_percent := r.humidity_percent
               is_flood := clipFlag fl }
    | _, _, _, _ => none

/-- Closed-interval date-window membership used by the loader. -/
def inWindow (s e : ℤ) (r : Row) : Bool := decide (s ≤ r.date) && decide (r.date ≤ e)

/-- `src/flood_pipeline/csv_ingestion.py::load_mockup_flood_dataset`
after CSV parsing: clean, filter to `[start_date, end_date]`; if that is
empty, re-anchor to the trailing 7 days ending at the maximum date of the
full cleaned dataset.  On an empty cleaned dataset `df["date"].max()` is
the float NaN, and `latest_date - timedelta(days=6)` raises a `TypeError`
(float minus timedelta) right here inside the loader, before any
effective date exists — modelled as the error branch. -/
def load_mockup_flood_dataset (raw : List RawRow) (start_date end_date : ℤ) :
    Except String (List Row × ℤ × ℤ) :=
  let df := cleanRows raw
  let filtered := df.filter (inWindow start_date end_date)
  if filtered.isEmpty then
    match (df.map (fun r => r.date)).max? with
    | none =>
        .error "TypeError: unsupported operand type for -: float and datetime.timedelta"
    | some latest =>
        .ok (df.filter (inWindow (latest - 6) latest), latest - 6, latest)
  else
    .ok (filtered, start_date, end_date)

/-! ## Province aggregation (`src/flood_pipeline/csv_processing.py`) -/

/-- The static `PROVINCE_CENTROIDS` table (longitude, latitude). -/
def PROVINCE_CENTROIDS : List (String × ℚ × ℚ) :=
  [("Ayutthaya", 100.5686, 14.3532),
   ("Bangkok", 100.5018, 13.7563),
   ("Chiang Mai", 98.9853, 18.7883),
   ("Chiang Rai", 99.8406, 19.9105),
   ("Khon Kaen", 102.8350, 16.4419),
   ("Nakhon Ratchasima", 102.0978, 14.9799),
   ("Nakhon Sawan", 100.1372, 15.7047),
   ("Nakhon Si Thammarat", 99.9631, 8.4304),
   ("Nan", 100.7715, 18.7756),
   ("Pathum Thani", 100.5250, 14.0208),
   ("Phrae", 100.1417, 18.1459),
   ("Songkhla", 100.5997, 7.2003),
   ("Sukhothai", 99.8220, 17.0056),
   ("Surat Thani", 99.3334, 9.1401),
   ("Ubon Ratchathani", 104.8572, 15.2448)]

/-- `PROVINCE_CENTROIDS.get(p, (nan, nan))` followed by the `dropna` on
`lon`/`lat`: an unknown province has no centroid. -/
def centroidOf (p : String) : Option (ℚ × ℚ) :=
  (PROVINCE_CENTROIDS.find? (fun e => e.1 == p)).map (fun e => e.2)

/-- One row of the `groupby("province").agg(...)` result. -/
structure Agg where
  province : String
  sample_count : ℕ
  flood_events : ℚ
  rainfall_mm_mean : FVal
  water_level_m_mean : FVal
  temperature_c_mean : FVal
  humidity_percent_mean : FVal
  event_start : Option ℤ
  event_end : Option ℤ
deriving DecidableEq, Repr

/-- The aggregate of one province group (groups are nonempty by
construction, so the date min/max and the all-defined means are defined). -/
def mkAgg (p : String) (rows : List Row) : Agg :=
  { province := p
    sample_count := rows.length
    flood_events := (rows.map (fun r => r.is_flood)).sum
    rainfall_mm_mean := qmeanF (rows.map (fun r => r.rainfall_mm))
    water_level_m_mean := qmeanF (rows.map (fun r => r.water_level_m))
    temperature_c_mean := fmean (rows.map (fun r => r.temperature_c))
    humidity_percent_mean := fmean (rows.map (fun r => r.humidity_percent))
    event_start := (rows.map (fun r => r.date)).min?
    event_end := (rows.map (fun r => r.date)).max? }

/-- `df.groupby("province").agg(...)`: one `Agg` per distinct province.
(pandas sorts the group keys; no claim depends on row order.) -/
def aggregateProvince (df : List Row) : List Agg :=
  (df.map (fun r => r.province)).dedup.map
    (fun p => mkAgg p (df.filter (fun r => r.province == p)))

/-- The `sample_count >= min_samples_per_province` threshold filter. -/
def aggregateFiltered (df : List Row) (minSamples : ℕ) : List Agg :=
  (aggregateProvince df).filter (fun a => decide (minSamples ≤ a.sample_count))

/-- `grouped["flood_rate"] = flood_events / sample_count`
(computed after the threshold filter). -/
def floodRateOf (a : Agg) : ℚ := a.flood_events / (a.sample_count : ℚ)

/-- The region-level risk formula:
`(0.40*water_norm + 0.30*rainfall_norm + 0.20*flood_rate
  + 0.10*humidity_norm).clip(0.0, 1.0)`. -/
def regionRiskFormula (w r h fr : FVal) : FVal :=
  fclip01 (fadd (fadd (fadd (fmul (some (0.40 : ℚ)) w) (fmul (some (0.30 : ℚ)) r))
    (fmul (some (0.20 : ℚ)) fr)) (fmul (some (0.10 : ℚ)) h))

/-- Four-column elementwise combination (pandas Series arithmetic). -/
def zipWith4 (f : α → β → γ → δ → ε) : List α → List β → List γ → List δ → List ε
  | a :: as, b :: bs, c :: cs, d :: ds => f a b c d :: zipWith4 f as bs cs ds
  | _, _, _, _ => []

/-- The `risk_score` column of the filtered grouped frame: each of the
three mean columns is `_minmax`-normalized across regions, then combined
with the flood rate by `regionRiskFormula`. -/
def riskColumn (g : List Agg) : List FVal :=
  zipWith4 regionRiskFormula
    (_minmax (g.map (fun a => a.water_level_m_mean)))
    (_minmax (g.map (fun a => a.rainfall_mm_mean)))
    (_minmax (g.map (fun a => a.humidity_percent_mean)))
    (g.map (fun a => some (floodRateOf a)))

/-- One output record of `build_province_risk_geodata`
(`detected_at` is wall-clock time, modelled as the constant `0`;
`geometry` is the centroid point `(lon, lat)`). -/
structure Summary extends Agg where
  flood_rate : ℚ
  risk_score : FVal
  detected_at : ℕ
  source_dataset : String
  lon : ℚ
  lat : ℚ
deriving DecidableEq, Repr

/-- `src/flood_pipeline/csv_processing.py::build_province_risk_geodata`:
group by province, drop groups below the sample threshold, compute
flood rate and the normalized risk score across the surviving regions,
then attach centroids and drop regions with unknown centroid
(the `dropna(subset=["lon","lat"])`). -/
def build_province_risk_geodata (df : List Row) (minSamples : ℕ)
    (sourceDataset : String) : List Summary :=
  let g := aggregateFiltered df minSamples
  let risks := riskColumn g
  (g.zip risks).filterMap fun ar =>
    (centroidOf ar.1.province).map fun c =>
      { toAgg := ar.1
        flood_rate := floodRateOf ar.1
        risk_score := ar.2
        detected_at := 0
        source_dataset := sourceDataset
        lon := c.1
        lat := c.2 }

/-! ## Batch pipeline (`src/flood_pipeline/pipeline.py`, `storage.py`) -/

/-- The summary dict returned by `run_pipeline`. -/
structure RunSummary where
  dataset : String
  start_date : ℤ
  end_date : ℤ
  records_used : ℕ
  province_points : ℕ
  rows_inserted : ℕ
  flood_geojson : String
deriving DecidableEq, Repr

deriving instance DecidableEq for Except

/-- `src/flood_pipeline/storage.py::save_flood_events_to_postgis`:
an empty frame is an explicit no-op returning 0; otherwise the rows are
appended and `len(gdf)` is returned (the database I/O itself is out of
scope per the spec and modelled as succeeding). -/
def save_flood_events_to_postgis (gdf : List Summary) : ℕ :=
  if gdf.isEmpty then 0 else gdf.length

/-- `src/flood_pipeline/pipeline.py::run_pipeline` (config loading and
filesystem side effects elided): load, aggregate, persist, and return the
run summary.  Loader exceptions propagate uncaught, so on a dataset with
zero usable rows the loader TypeError aborts the run.  The GeoJSON write
is skipped when the frame is empty; the summary reports the effective
dates, the row/region counts, and the rows inserted. -/
def run_pipeline (raw : List RawRow) (start_date end_date : ℤ)
    (minSamples : ℕ) (csvName : String) : Except String RunSummary :=
  match load_mockup_flood_dataset raw start_date end_date with
  | .error msg => .error msg
  | .ok (rawDf, effectiveStart, effectiveEnd) =>
      let floodGdf := build_province_risk_geodata rawDf minSamples csvName
      let outputGeojson := "flood_risk_" ++ toString effectiveStart ++ "_" ++
        toString effectiveEnd ++ ".geojson"
      .ok { dataset := csvName
            start_date := effectiveStart
            end_date := effectiveEnd
            records_used := rawDf.length
            province_points := floodGdf.length
            rows_inserted := save_flood_events_to_postgis floodGdf
            flood_geojson := outputGeojson }

/-! ## Dashboard color mapper (`dashboard/streamlit_app.py::_risk_to_rgb`) -/

/-- Python `round`: round half to even (banker's rounding). -/
def roundHalfEven (q : ℚ) : ℤ :=
  let f := ⌊q⌋
  let r := q - f
  if r < 1/2 then f
  else if 1/2 < r then f + 1
  else if f % 2 = 0 then f else f + 1

/-- `int(round(left + (right - left) * ratio))` for one color channel. -/
def interpChannel (l r : ℤ) (ratio : ℚ) : ℤ :=
  roundHalfEven ((l : ℚ) + ((r : ℚ) - (l : ℚ)) * ratio)

/-- The fixed anchor gradient of `_risk_to_rgb`. -/
def riskAnchors : List (ℚ × (ℤ × ℤ × ℤ)) :=
  [(0,    (245, 240, 24)),
   (0.25, (122, 233, 28)),
   (0.50, (42, 201, 92)),
   (0.75, (64, 150, 205)),
   (1,    (120, 76, 190))]

/-- The anchor-pair loop of `_risk_to_rgb`: the first segment with
`left_pos <= value <= right_pos` interpolates; falling through the loop
returns the last anchor's color (`anchors[-1][1]`); the empty case is
unreachable for the fixed nonempty anchor list. -/
def segLoop (value : ℚ) : List (ℚ × (ℤ × ℤ × ℤ)) → ℤ × ℤ × ℤ
  | (lp, lc) :: (rp, rc) :: rest =>
      if lp ≤ value ∧ value ≤ rp then
        (interpChannel lc.1 rc.1 ((value - lp) / (rp - lp)),
         interpChannel lc.2.1 rc.2.1 ((value - lp) / (rp - lp)),
         interpChannel lc.2.2 rc.2.2 ((value - lp) / (rp - lp)))
      else segLoop value ((rp, rc) :: rest)
  | [(_p, c)] => c
  | [] => (0, 0, 0)

/-- `dashboard/streamlit_app.py::_risk_to_rgb`:
`value = max(0.0, min(1.0, float(risk)))`, then piecewise-linear
interpolation over the fixed anchors. -/
def _risk_to_rgb (risk : ℚ) : ℤ × ℤ × ℤ :=
  segLoop (max 0 (min 1 risk)) riskAnchors

/-! ## Dashboard event-level scoring
(`dashboard/streamlit_app.py::load_event_level_dataset`) -/

/-- Row cleaning of `load_event_level_dataset`: like the batch loader but
the `dropna` subset also contains `humidity_percent`. -/
def cleanEventRows (raw : List RawRow) : List Row :=
  raw.filterMap fun r =>
    match r.date, r.rainfall_mm, r.water_level_m, r.humidity_percent, r.is_flood with
    | some d, some rain, some w, some h, some fl =>
        some { date := d
               province := (r.province.getD "nan").trim
               rainfall_mm := rain
               water_level_m := w
               temperature_c := r.temperature_c
               humidity_percent := some h
               is_flood := clipFlag fl }
    | _, _, _, _, _ => none

/-- The event rows surviving the centroid attach + `dropna` on
`lon_center`/`lat_center` (the deterministic display jitter that follows
does not affect any scored column and is not modelled). -/
def eventLevelRows (raw : List RawRow) : List Row :=
  (cleanEventRows raw).filter (fun r => (centroidOf r.province).isSome)

/-- Five-column elementwise combination (pandas Series arithmetic). -/
def zipWith5 (f : α → β → γ → δ → ε → ζ) :
    List α → List β → List γ → List δ → List ε → List ζ
  | a :: as, b :: bs, c :: cs, d :: ds, e :: es =>
      f a b c d e :: zipWith5 f as bs cs ds es
  | _, _, _, _, _ => []

/-- The event-level risk formula:
`(0.42*water_norm + 0.30*rain_norm + 0.15*is_flood + 0.08*humidity_norm
  + 0.05*temp_norm).clip(0.0, 1.0)`. -/
def eventRiskFormula (w r fl h t : FVal) : FVal :=
  fclip01 (fadd (fadd (fadd (fadd (fmul (some (0.42 : ℚ)) w)
    (fmul (some (0.30 : ℚ)) r)) (fmul (some (0.15 : ℚ)) fl))
    (fmul (some (0.08 : ℚ)) h)) (fmul (some (0.05 : ℚ)) t))

/-- The `event_risk_score` column: each signal is `_minmax_numeric`-
normalized over the whole surviving batch (temperature may still be NaN —
it is not in the `dropna` subset), then combined by `eventRiskFormula`. -/
def eventRiskColumn (rows : List Row) : List FVal :=
  zipWith5 eventRiskFormula
    (_minmax_numeric (rows.map (fun r => some r.water_level_m)))
    (_minmax_numeric (rows.map (fun r => some r.rainfall_mm)))
    (rows.map (fun r => some r.is_flood))
    (_minmax_numeric (rows.map (fun r => r.humidity_percent)))
    (_minmax_numeric (rows.map (fun r => r.temperature_c)))

/-! ## Raster water extraction (`src/flood_pipeline/processing.py`)

Rasters are grids of exact rationals (the float32 bands); `ℚ` division is
total with `q/0 = 0` where float would give `inf` — the `1e-6` epsilon
exists precisely to avoid that point on reflectance data.  Polygon area
is the projected (UTM) area, modelled as pixel count times a
`pixelAreaSqkm` parameter; `rasterio.features.shapes` vectorizes
4-connected regions, modelled as 4-connected pixel components. -/

abbrev Grid := List (List ℚ)

/-- The `1e-6` epsilon of `compute_mndwi`. -/
def epsM : ℚ := 1e-6

/-- `src/flood_pipeline/processing.py::compute_mndwi`:
`(green - swir) / (green + swir + eps)` pixelwise. -/
def compute_mndwi (green swir : Grid) : Grid :=
  List.zipWith (fun grow srow =>
    List.zipWith (fun g s => (g - s) / (g + s + epsM)) grow srow) green swir

/-- `water_mask = ((mndwi > mndwi_threshold) & (data_mask > 0)).astype("uint8")`. -/
def waterMask (green swir dmask : Grid) (thr : ℚ) : List (List ℕ) :=
  List.zipWith (fun mrow drow =>
    List.zipWith (fun m d => if thr < m ∧ 0 < d then 1 else 0) mrow drow)
    (compute_mndwi green swir) dmask

/-- 4-connectivity of pixel positions (the `shapes` default). -/
def adj4 (p q : ℕ × ℕ) : Bool :=
  (p.1 == q.1 && (p.2 == q.2 + 1 || q.2 == p.2 + 1)) ||
  (p.2 == q.2 && (p.1 == q.1 + 1 || q.1 == p.1 + 1))

/-- Whether a pixel touches a pixel group. -/
def touches (p : ℕ × ℕ) (c : List (ℕ × ℕ)) : Bool := c.any (adj4 p)

/-- Add one pixel to a set of groups, merging every group it touches. -/
def addPoint (cs : List (List (ℕ × ℕ))) (p : ℕ × ℕ) : List (List (ℕ × ℕ)) :=
  let t := cs.partition (touches p)
  (p :: t.1.flatten) :: t.2

/-- Connected components (4-connectivity) of a set of pixels. -/
def comps (ps : List (ℕ × ℕ)) : List (List (ℕ × ℕ)) := ps.foldl addPoint []

/-- The positions of one mask row holding the value 1. -/
def rowTrue (i : ℕ) : ℕ → List ℕ → List (ℕ × ℕ)
  | _, [] => []
  | j, v :: vs => (if v = 1 then [(i, j)] else []) ++ rowTrue i (j + 1) vs

/-- All positions of a mask holding the value 1 (the pixels selected by
`shapes(water_mask, mask=water_mask == 1, ...)`). -/
def maskTruePositions : ℕ → List (List ℕ) → List (ℕ × ℕ)
  | _, [] => []
  | i, row :: rows => rowTrue i 0 row ++ maskTruePositions (i + 1) rows

/-- Safe grid access (indices are in range at every use). -/
def gridAt (g : Grid) (i j : ℕ) : ℚ := (g.getD i []).getD j 0

/-- `np.nanmean` of the index over a (nonempty) polygon footprint. -/
def meanAt (g : Grid) (c : List (ℕ × ℕ)) : ℚ :=
  (c.map (fun p => gridAt g p.1 p.2)).sum / (c.length : ℚ)

/-- One output record of `extract_flood_polygons`
(`detected_at` is wall-clock time, modelled as the constant `0`;
`geometry` is the pixel footprint of the polygon). -/
structure WaterPolygonRec where
  water : ℕ
  area_sqkm : ℚ
  mean_mndwi : ℚ
  detected_at : ℕ
  source_raster : String
  geometry : List (ℕ × ℕ)
deriving DecidableEq, Repr

/-- The column schema of the empty frame returned when no candidate
region exists (and of the final populated frame). -/
def fullPolySchema : List String :=
  ["water", "area_sqkm", "mean_mndwi", "detected_at", "source_raster", "geometry"]

/-- `src/flood_pipeline/processing.py::extract_flood_polygons` (raster
file I/O elided): compute the index and the binary mask, vectorize the
mask-1 regions, return the schema-complete empty frame when there are
none; else compute projected areas, drop polygons below the area
threshold (returning the partially-built frame when none survive), and
attach mean index and provenance.  The result is the returned frame
paired with its column schema. -/
def extract_flood_polygons (green swir dmask : Grid)
    (mndwiThreshold minPolygonAreaSqkm pixelAreaSqkm : ℚ)
    (sourceRaster : String) : List WaterPolygonRec × List String :=
  let mndwi := compute_mndwi green swir
  let w := waterMask green swir dmask mndwiThreshold
  let geoms := comps (maskTruePositions 0 w)
  if geoms.isEmpty then
    ([], fullPolySchema)
  else
    let withArea := geoms.map fun c => (c, pixelAreaSqkm * (c.length : ℚ))
    let kept := withArea.filter fun ca => decide (minPolygonAreaSqkm ≤ ca.2)
    if kept.isEmpty then
      ([], ["water", "geometry", "area_sqkm"])
    else
      (kept.map fun ca =>
        { water := 1
          area_sqkm := ca.2
          mean_mndwi := meanAt mndwi ca.1
          detected_at := 0
          source_raster := sourceRaster
          geometry := ca.1 }, fullPolySchema)

/-! ## Concrete inputs used by witnesses and counterexamples -/

/-- A fully-coerced raw row. -/
def mkRaw (d : ℤ) (p : String) (rain w : ℚ) (t h : Option ℚ) (fl : ℚ) : RawRow :=
  { date := some d
    province := some p
    rainfall_mm := some rain
    water_level_m := some w
    temperature_c := t
    humidity_percent := h
    is_flood := some fl }

/-- A cleaned event row. -/
def mkRow (d : ℤ) (p : String) (rain w : ℚ) (t h : FVal) (fl : ℚ) : Row :=
  { date := d
    province := p
    rainfall_mm := rain
    water_level_m := w
    temperature_c := t
    humidity_percent := h
    is_flood := fl }

/-- Two known-centroid provinces with distinct water levels. -/
def exDfA : List Row :=
  [mkRow 1 "Bangkok" 0 10 (some 25) (some 50) 0,
   mkRow 1 "Phrae" 0 20 (some 25) (some 60) 0]

/-- `exDfA` plus an unknown-centroid region with a smaller water level. -/
def exDfB : List Row :=
  exDfA ++ [mkRow 1 "Atlantis" 0 1 (some 25) (some 50) 0]

/-- A batch whose "Bangkok" group has only missing humidity samples. -/
def exDfNaN : List Row :=
  [mkRow 1 "Bangkok" 0 1 (some 25) none 0,
   mkRow 1 "Phrae" 0 2 (some 25) (some 10) 0,
   mkRow 1 "Nan" 0 3 (some 25) (some 20) 0]

/-- Two "Phrae" samples and a single "Bangkok" sample. -/
def exDfC4 : List Row :=
  [mkRow 5 "Phrae" 4 2 (some 30) (some 50) 1,
   mkRow 5 "Phrae" 4 2 (some 30) (some 50) 1,
   mkRow 5 "Bangkok" 0 9 none (some 40) 0]

/-- One loadable raw row dated day 30. -/
def exRaw30 : List RawRow := [mkRaw 30 "Bangkok" 5 2 (some 30) (some 80) 0]

/-- One loadable raw row dated day 10. -/
def exRaw10 : List RawRow := [mkRaw 10 "Bangkok" 5 2 (some 30) (some 80) 0]

/-- A 2x2 raster with `green = 0`, `swir = 1` everywhere: every index
value is negative, so no pixel passes a 0 threshold. -/
def exGreen0 : Grid := [[0, 0], [0, 0]]

/-- The SWIR band of the all-dry raster. -/
def exSwir1 : Grid := [[1, 1], [1, 1]]

/-- An all-valid data mask. -/
def exDmask1 : Grid := [[1, 1], [1, 1]]

/-- Float `<=` as a Boolean: any comparison with NaN is false.  Used to
state the `0.0 <= risk_score <= 1.0` check the way float code runs it. -/
def fleB : FVal → FVal → Bool
  | some a, some b => decide (a ≤ b)
  | _, _ => false

/-- Safe access into a binary-mask grid. -/
def maskAt (w : List (List ℕ)) (i j : ℕ) : ℕ := (w.getD i []).getD j 0

/-- The risk score of a named province in an output frame. -/
def lookupRisk (l : List Summary) (p : String) : Option FVal :=
  (l.find? (fun s => s.province == p)).map (fun s => s.risk_score)

/-! ## Helper lemmas -/

theorem zipWith_getD {α β γ} (f : α → β → γ) (as : List α) (bs : List β) (i : ℕ)
    (ha : i < as.length) (hb : i < bs.length) (d₁ : α) (d₂ : β) (d₃ : γ) :
    (List.zipWith f as bs).getD i d₃ = f (as.getD i d₁) (bs.getD i d₂) := by
  induction as generalizing bs i with
  | nil => simp at ha
  | cons a as ih =>
    cases bs with
    | nil => simp at hb
    | cons b bs =>
      cases i with
      | zero => rfl
      | succ n =>
        simp only [List.zipWith_cons_cons, List.getD_cons_succ]
        exact ih bs n (by simpa using ha) (by simpa using hb)

theorem zipWith4_mem {α β γ δ ε} {f : α → β → γ → δ → ε}
    {as : List α} {bs : List β} {cs : List γ} {ds : List δ} {r : ε}
    (h : r ∈ zipWith4 f as bs cs ds) :
    ∃ a b c d, a ∈ as ∧ b ∈ bs ∧ c ∈ cs ∧ d ∈ ds ∧ r = f a b c d := by
  induction as generalizing bs cs ds with
  | nil => simp [zipWith4] at h
  | cons a as ih =>
    cases bs with
    | nil => simp [zipWith4] at h
    | cons b bs =>
      cases cs with
      | nil => simp [zipWith4] at h
      | cons c cs =>
        cases ds with
        | nil => simp [zipWith4] at h
        | cons d ds =>
          rcases List.mem_cons.1 h with h | h
          · exact ⟨a, b, c, d, .head _, .head _, .head _, .head _, h⟩
          · obtain ⟨a', b', c', d', ha, hb, hc, hd, hr⟩ := ih h
            exact ⟨a', b', c', d', .tail _ ha, .tail _ hb, .tail _ hc, .tail _ hd, hr⟩

theorem zipWith5_getD {α β γ δ ε ζ} (f : α → β → γ → δ → ε → ζ)
    (as : List α) (bs : List β) (cs : List γ) (ds : List δ) (es : List ε) (i : ℕ)
    (ha : i < as.length) (hb : i < bs.length) (hc : i < cs.length)
    (hd : i < ds.length) (he : i < es.length)
    (d₁ : α) (d₂ : β) (d₃ : γ) (d₄ : δ) (d₅ : ε) (d₆ : ζ) :
    (zipWith5 f as bs cs ds es).getD i d₆ =
      f (as.getD i d₁) (bs.getD i d₂) (cs.getD i d₃) (ds.getD i d₄) (es.getD i d₅) := by
  induction as generalizing bs cs ds es i with
  | nil => simp at ha
  | cons a as ih =>
    cases bs with
    | nil => simp at hb
    | cons b bs =>
      cases cs with
      | nil => simp at hc
      | cons c cs =>
        cases ds with
        | nil => simp at hd
        | cons d ds =>
          cases es with
          | nil => simp at he
          | cons e es =>
            cases i with
            | zero => rfl
            | succ n =>
              simp only [zipWith5, List.getD_cons_succ]
              exact ih bs cs ds es n (by simpa using ha) (by simpa using hb)
                (by simpa using hc) (by simpa using hd) (by simpa using he)

theorem max?_isSome_of_ne_nil {α} [Max α] {l : List α} (h : l ≠ []) :
    ∃ m, l.max? = some m := by
  cases hm : l.max? with
  | none => exact absurd (List.max?_eq_none_iff.1 hm) h
  | some m => exact ⟨m, rfl⟩

theorem min?_isSome_of_ne_nil {α} [Min α] {l : List α} (h : l ≠ []) :
    ∃ m, l.min? = some m := by
  cases hm : l.min? with
  | none => exact absurd (List.min?_eq_none_iff.1 hm) h
  | some m => exact ⟨m, rfl⟩

theorem fseriesMin_isSome {xs : List FVal} {v : ℚ} (hv : some v ∈ xs) :
    ∃ m, fseriesMin xs = some m :=
  min?_isSome_of_ne_nil
    (List.ne_nil_of_mem (List.mem_filterMap.2 ⟨some v, hv, rfl⟩))

theorem fseriesMax_isSome {xs : List FVal} {v : ℚ} (hv : some v ∈ xs) :
    ∃ m, fseriesMax xs = some m :=
  max?_isSome_of_ne_nil
    (List.ne_nil_of_mem (List.mem_filterMap.2 ⟨some v, hv, rfl⟩))

theorem qmeanF_isSome {l : List ℚ} (h : l ≠ []) : ∃ q, qmeanF l = some q := by
  unfold qmeanF
  rw [if_neg (by simpa [List.isEmpty_iff] using h)]
  exact ⟨_, rfl⟩

theorem fmean_isSome {xs : List FVal} {v : ℚ} (hv : some v ∈ xs) :
    ∃ q, fmean xs = some q := by
  have hmem : v ∈ xs.filterMap id := List.mem_filterMap.2 ⟨some v, hv, rfl⟩
  unfold fmean
  rw [if_neg (by simpa [List.isEmpty_iff] using List.ne_nil_of_mem hmem)]
  exact ⟨_, rfl⟩

/-- In the non-degenerate branch the divisor `max - min` cannot be zero,
so `_minmax` maps an all-defined series to all-defined values. -/
theorem minmax_isSome {xs : List FVal} (hx : ∀ x ∈ xs, x.isSome = true) :
    ∀ y ∈ _minmax xs, ∃ q, y = some q := by
  intro y hy
  simp only [_minmax] at hy
  by_cases hcond :
      fltB (fabs (fsub (fseriesMax xs) (fseriesMin xs))) (some eps9) = true
  · rw [if_pos hcond] at hy
    obtain ⟨x, -, hxy⟩ := List.mem_map.1 hy
    exact ⟨0, hxy.symm⟩
  · rw [if_neg hcond] at hy
    obtain ⟨x, hxmem, hxy⟩ := List.mem_map.1 hy
    obtain ⟨v, hv⟩ := Option.isSome_iff_exists.1 (hx x hxmem)
    obtain ⟨m, hm⟩ := fseriesMin_isSome (hv ▸ hxmem)
    obtain ⟨M, hM⟩ := fseriesMax_isSome (hv ▸ hxmem)
    rw [hm, hM] at hcond
    have hne : M - m ≠ 0 := by
      intro h0
      apply hcond
      simp only [fsub, fabs, fltB, Option.map_some', h0, abs_zero]
      norm_num [eps9]
    rw [hv, hm, hM] at hxy
    simp only [fsub, fdiv, if_neg hne] at hxy
    exact ⟨_, hxy.symm⟩

/-- A fully-defined region record gets a defined, clipped risk score. -/
theorem regionRiskFormula_bounds {w r h fr : FVal}
    (hw : ∃ a, w = some a) (hr : ∃ a, r = some a)
    (hh : ∃ a, h = some a) (hfr : ∃ a, fr = some a) :
    ∃ q, regionRiskFormula w r h fr = some q ∧ 0 ≤ q ∧ q ≤ 1 := by
  obtain ⟨a, rfl⟩ := hw
  obtain ⟨b, rfl⟩ := hr
  obtain ⟨c, rfl⟩ := hh
  obtain ⟨d, rfl⟩ := hfr
  refine ⟨min 1 (max 0 (0.40 * a + 0.30 * b + 0.20 * d + 0.10 * c)), rfl, ?_, ?_⟩
  · exact le_min zero_le_one (le_max_left _ _)
  · exact min_le_left _ _

theorem mem_aggregateProvince {df : List Row} {a : Agg}
    (ha : a ∈ aggregateProvince df) :
    a = mkAgg a.province (df.filter (fun r => r.province == a.province))
    ∧ ∃ r ∈ df, r.province = a.province := by
  obtain ⟨p, hp, rfl⟩ := List.mem_map.1 ha
  have hp' : p ∈ df.map (fun r => r.province) := List.mem_dedup.1 hp
  obtain ⟨r, hr, hrp⟩ := List.mem_map.1 hp'
  exact ⟨rfl, r, hr, hrp⟩

theorem agg_group_ne_nil {df : List Row} {a : Agg}
    (ha : a ∈ aggregateProvince df) :
    df.filter (fun r => r.province == a.province) ≠ [] := by
  obtain ⟨-, r, hr, hrp⟩ := mem_aggregateProvince ha
  exact List.ne_nil_of_mem (List.mem_filter.2 ⟨hr, by simp [hrp]⟩)

/-- Every aggregate surviving the threshold filter has defined water,
rainfall and (given all-defined input humidity) humidity means. -/
theorem aggregateFiltered_means_isSome {df : List Row} {minSamples : ℕ}
    (hhum : ∀ r ∈ df, (r.humidity_percent).isSome = true) :
    ∀ a ∈ aggregateFiltered df minSamples,
      (a.water_level_m_mean).isSome = true ∧ (a.rainfall_mm_mean).isSome = true ∧
      (a.humidity_percent_mean).isSome = true := by
  intro a hag
  have hap : a ∈ aggregateProvince df := (List.mem_filter.1 hag).1
  have heq := (mem_aggregateProvince hap).1
  have hne := agg_group_ne_nil hap
  obtain ⟨r0, hr0⟩ := List.exists_mem_of_ne_nil _ hne
  refine ⟨?_, ?_, ?_⟩
  · rw [heq]
    obtain ⟨q, hq⟩ :=
      qmeanF_isSome (l := (df.filter (fun r => r.province == a.province)).map
        (fun r => r.water_level_m)) (by simpa [List.map_eq_nil_iff] using hne)
    simp [mkAgg, hq]
  · rw [heq]
    obtain ⟨q, hq⟩ :=
      qmeanF_isSome (l := (df.filter (fun r => r.province == a.province)).map
        (fun r => r.rainfall_mm)) (by simpa [List.map_eq_nil_iff] using hne)
    simp [mkAgg, hq]
  · rw [heq]
    have hr0df : r0 ∈ df := (List.mem_filter.1 hr0).1
    obtain ⟨h0, hh0⟩ := Option.isSome_iff_exists.1 (hhum r0 hr0df)
    have hmem : some h0 ∈ (df.filter (fun r => r.province == a.province)).map
        (fun r => r.humidity_percent) := List.mem_map.2 ⟨r0, hr0, hh0⟩
    obtain ⟨q, hq⟩ := fmean_isSome hmem
    simp [mkAgg, hq]

/-- C1 (amended): each surviving region's risk score is
`clip(0.40*norm(water mean) + 0.30*norm(rainfall mean) + 0.20*flood rate
+ 0.10*norm(humidity mean))`, and — provided every input record carries a
humidity value — every output risk score is defined and lies in `[0, 1]`.
(Without that proviso a region whose humidity samples are all missing
gets a NaN risk score; see the counterexample.) -/
theorem c1_region_risk_formula_and_bounds (df : List Row) (minSamples : ℕ)
    (src : String)
    (hhum : ∀ r ∈ df, (r.humidity_percent).isSome = true) :
    riskColumn (aggregateFiltered df minSamples) =
      zipWith4 regionRiskFormula
        (_minmax ((aggregateFiltered df minSamples).map (fun a => a.water_level_m_mean)))
        (_minmax ((aggregateFiltered df minSamples).map (fun a => a.rainfall_mm_mean)))
        (_minmax ((aggregateFiltered df minSamples).map (fun a => a.humidity_percent_mean)))
        ((aggregateFiltered df minSamples).map (fun a => some (floodRateOf a)))
    ∧ ∀ s ∈ build_province_risk_geodata df minSamples src,
        ∃ q, s.risk_score = some q ∧ 0 ≤ q ∧ q ≤ 1 := by
  refine ⟨rfl, ?_⟩
  intro s hs
  simp only [build_province_risk_geodata] at hs
  obtain ⟨ar, har, hmap⟩ := List.mem_filterMap.1 hs
  obtain ⟨c, hc, rfl⟩ := Option.map_eq_some'.1 hmap
  have hzip := List.of_mem_zip har
  have hsome := @aggregateFiltered_means_isSome df minSamples hhum
  have hrisk : ar.2 ∈ riskColumn (aggregateFiltered df minSamples) := hzip.2
  simp only [riskColumn] at hrisk
  obtain ⟨w, r, h, fr, hw, hr, hh, hfr, hrf⟩ := zipWith4_mem hrisk
  obtain ⟨qw, hqw⟩ := minmax_isSome (fun x hx => by
    obtain ⟨a, hag, rfl⟩ := List.mem_map.1 hx
    exact (hsome a hag).1) w hw
  obtain ⟨qr, hqr⟩ := minmax_isSome (fun x hx => by
    obtain ⟨a, hag, rfl⟩ := List.mem_map.1 hx
    exact (hsome a hag).2.1) r hr
  obtain ⟨qh, hqh⟩ := minmax_isSome (fun x hx => by
    obtain ⟨a, hag, rfl⟩ := List.mem_map.1 hx
    exact (hsome a hag).2.2) h hh
  obtain ⟨a, -, hfa⟩ := List.mem_map.1 hfr
  obtain ⟨q, hqeq, h0, h1⟩ := regionRiskFormula_bounds
    ⟨qw, hqw⟩ ⟨qr, hqr⟩ ⟨qh, hqh⟩ ⟨floodRateOf a, hfa.symm⟩
  refine ⟨q, ?_, h0, h1⟩
  show ar.2 = some q
  rw [hrf, hqeq]

/-- C1 counterexample: in a batch whose "Bangkok" samples all lack
humidity, the output "Bangkok" record has a NaN risk score, so the
`0.0 <= risk_score <= 1.0` check fails on the output frame. -/
theorem c1_counterexample :
    lookupRisk (build_province_risk_geodata exDfNaN 1 "ds") "Bangkok" = some none
    ∧ ((build_province_risk_geodata exDfNaN 1 "ds").all
        (fun s => fleB (some 0) s.risk_score && fleB s.risk_score (some 1))) = false := by
  with_unfolding_all decide

/-- C1 witness: on a concrete all-humidity batch the hypothesis holds and
every output risk score is a defined value in `[0, 1]`. -/
theorem c1_witness :
    (∀ r ∈ exDfA, (r.humidity_percent).isSome = true)
    ∧ ∀ s ∈ build_province_risk_geodata exDfA 1 "ds",
        ∃ q, s.risk_score = some q ∧ 0 ≤ q ∧ q ≤ 1 :=
  ⟨by decide, (c1_region_risk_formula_and_bounds exDfA 1 "ds" (by decide)).2⟩

/-- C4: every output region summary satisfies the sample threshold and
`flood_rate = flood_events / sample_count` exactly, and a province whose
row count is below the threshold never appears in the output. -/
theorem c4_threshold_and_exact_rate (df : List Row) (minSamples : ℕ)
    (src : String) (p : String)
    (hp : (df.filter (fun r => r.province == p)).length < minSamples) :
    ∀ s ∈ build_province_risk_geodata df minSamples src,
      (minSamples ≤ s.sample_count
        ∧ s.flood_rate = s.flood_events / (s.sample_count : ℚ))
      ∧ s.province ≠ p := by
  intro s hs
  simp only [build_province_risk_geodata] at hs
  obtain ⟨ar, har, hmap⟩ := List.mem_filterMap.1 hs
  obtain ⟨c, hc, rfl⟩ := Option.map_eq_some'.1 hmap
  have hg : ar.1 ∈ aggregateFiltered df minSamples := (List.of_mem_zip har).1
  have hfil := List.mem_filter.1 hg
  have hap : ar.1 ∈ aggregateProvince df := hfil.1
  have hcount : minSamples ≤ ar.1.sample_count := by simpa using hfil.2
  refine ⟨⟨hcount, rfl⟩, ?_⟩
  intro hpe
  have hpe' : ar.1.province = p := hpe
  have heq := (mem_aggregateProvince hap).1
  have hsc := congrArg Agg.sample_count heq
  simp only [mkAgg] at hsc
  rw [hpe'] at hsc
  rw [hsc] at hcount
  omega

/-- C4 witness: with threshold 2 on a batch where "Bangkok" has a single
row, the below-threshold hypothesis holds concretely and every output
summary satisfies the threshold, has the exact flood rate, and is not
"Bangkok". -/
theorem c4_witness :
    ((exDfC4.filter (fun r => r.province == "Bangkok")).length < 2)
    ∧ ∀ s ∈ build_province_risk_geodata exDfC4 2 "ds",
        ((2 ≤ s.sample_count
          ∧ s.flood_rate = s.flood_events / (s.sample_count : ℚ))
        ∧ s.province ≠ "Bangkok") :=
  ⟨by decide, c4_threshold_and_exact_rate exDfC4 2 "ds" "Bangkok" (by decide)⟩

/-- C10: the min-max normalization of the per-region means runs over all
regions that pass the sample threshold, before unknown-centroid regions
are dropped: adding an "Atlantis" batch (no centroid, never in the
output, but in the filtered aggregate) changes Bangkok's output risk
score from 0 to 18/95. -/
theorem c10_normalization_before_centroid_drop :
    lookupRisk (build_province_risk_geodata exDfA 1 "ds") "Bangkok" = some (some 0)
    ∧ lookupRisk (build_province_risk_geodata exDfB 1 "ds") "Bangkok"
        = some (some (18/95))
    ∧ ((build_province_risk_geodata exDfB 1 "ds").all
        (fun s => s.province != "Atlantis")) = true
    ∧ ((aggregateFiltered exDfB 1).any
        (fun a => a.province == "Atlantis")) = true := by
  with_unfolding_all decide

/-- C2: whenever the requested window matches no rows but the cleaned
dataset is nonempty, the loader returns the trailing 7-day window
anchored at the dataset's maximum date — the effective window is
`[max - 6, max]` together with the rows inside it, not the requested
range. -/
theorem c2_fallback_window (raw : List RawRow) (s e : ℤ)
    (hne : cleanRows raw ≠ [])
    (hempty : (cleanRows raw).filter (inWindow s e) = []) :
    ∃ m, ((cleanRows raw).map (fun r => r.date)).max? = some m ∧
      load_mockup_flood_dataset raw s e =
        Except.ok ((cleanRows raw).filter (inWindow (m - 6) m), m - 6, m) := by
  obtain ⟨m, hm⟩ := max?_isSome_of_ne_nil
    (l := (cleanRows raw).map (fun r => r.date))
    (by simpa [List.map_eq_nil_iff] using hne)
  refine ⟨m, hm, ?_⟩
  simp [load_mockup_flood_dataset, hempty, hm]

/-- C2 witness: a dataset whose only row is dated day 30 (2024-06-30 on
the June-2024 day axis) with the empty requested window `[1, 5]` yields
the effective window `[24, 30]`, i.e. `[2024-06-24, 2024-06-30]`. -/
theorem c2_witness :
    cleanRows exRaw30 ≠ []
    ∧ (cleanRows exRaw30).filter (inWindow 1 5) = []
    ∧ (∃ m, ((cleanRows exRaw30).map (fun r => r.date)).max? = some m ∧
        load_mockup_flood_dataset exRaw30 1 5 =
          Except.ok ((cleanRows exRaw30).filter (inWindow (m - 6) m), m - 6, m))
    ∧ load_mockup_flood_dataset exRaw30 1 5 = Except.ok (cleanRows exRaw30, 24, 30) :=
  ⟨by with_unfolding_all decide, by with_unfolding_all decide,
   c2_fallback_window exRaw30 1 5 (by with_unfolding_all decide)
     (by with_unfolding_all decide),
   by with_unfolding_all decide⟩

/-- C3 (amended): both normalizers return the all-`0.0` series when the
range is degenerate (`|max - min| < 1e-9` on defined min/max), and
`_minmax_numeric` additionally does so when the minimum or maximum is
undefined (all-NaN input).  `_minmax` does not: it has no NaN guard
(see the counterexample). -/
theorem c3_degenerate_normalizers (xs : List FVal) :
    ((fseriesMin xs).isNone = true ∨ (fseriesMax xs).isNone = true ∨
        fltB (fabs (fsub (fseriesMax xs) (fseriesMin xs))) (some eps9) = true →
      _minmax_numeric xs = xs.map (fun _ => some 0))
    ∧ (fltB (fabs (fsub (fseriesMax xs) (fseriesMin xs))) (some eps9) = true →
      _minmax xs = xs.map (fun _ => some 0)) := by
  constructor
  · intro h
    have hc : ((fseriesMin xs).isNone || (fseriesMax xs).isNone ||
        fltB (fabs (fsub (fseriesMax xs) (fseriesMin xs))) (some eps9)) = true := by
      rcases h with h | h | h <;> simp [h]
    simp [_minmax_numeric, hc]
  · intro h
    simp [_minmax, h]

/-- C3 counterexample: on the all-NaN series `[NaN]`, `_minmax` returns
`[NaN]` — not the all-`0.0` series the claim promises for both
implementations — while `_minmax_numeric` returns `[0.0]`. -/
theorem c3_counterexample :
    _minmax [(none : FVal)] = [none]
    ∧ _minmax_numeric [(none : FVal)] = [some 0]
    ∧ _minmax [(none : FVal)] ≠ List.map (fun _ => some 0) [(none : FVal)] := by
  with_unfolding_all decide

/-- C3 witness: the all-NaN guard of `_minmax_numeric` and the
degenerate-range guard of `_minmax`, each at a concrete input. -/
theorem c3_witness :
    (fseriesMin [(none : FVal)]).isNone = true
    ∧ _minmax_numeric [(none : FVal)] = List.map (fun _ => some 0) [(none : FVal)]
    ∧ fltB (fabs (fsub (fseriesMax [some (5:ℚ), some 5])
        (fseriesMin [some (5:ℚ), some 5]))) (some eps9) = true
    ∧ _minmax [some (5:ℚ), some 5] = List.map (fun _ => some 0) [some (5:ℚ), some 5] :=
  ⟨by decide, (c3_degenerate_normalizers _).1 (Or.inl (by decide)),
   by with_unfolding_all decide,
   (c3_degenerate_normalizers _).2 (by with_unfolding_all decide)⟩

/-- On a nonempty cleaned dataset the loader succeeds, in both branches
(requested window or 7-day fallback): the TypeError branch needs an
empty cleaned dataset. -/
theorem load_ok_of_ne_nil (raw : List RawRow) (s e : ℤ)
    (hne : cleanRows raw ≠ []) :
    ∃ rows a b, load_mockup_flood_dataset raw s e = Except.ok (rows, a, b) := by
  by_cases hf : ((cleanRows raw).filter (inWindow s e)).isEmpty = true
  · obtain ⟨m, hm⟩ := max?_isSome_of_ne_nil
      (l := (cleanRows raw).map (fun r => r.date))
      (by simpa [List.map_eq_nil_iff] using hne)
    exact ⟨(cleanRows raw).filter (inWindow (m - 6) m), m - 6, m,
      by simp [load_mockup_flood_dataset, hf, hm]⟩
  · exact ⟨(cleanRows raw).filter (inWindow s e), s, e,
      by simp [load_mockup_flood_dataset, hf]⟩

/-- C7 (amended): a run over a dataset with at least one usable row
completes successfully even when zero regions survive aggregation — the
empty frame is persisted as a no-op (0 rows inserted) and reported in
the summary, not raised; only a dataset with zero usable rows makes the
run fail, and then with the TypeError raised inside the loader at
`latest_date - timedelta(days=6)`, which `run_pipeline` propagates. -/
theorem c7_empty_result_still_succeeds (raw : List RawRow) (s e : ℤ)
    (minSamples : ℕ) (src : String) :
    (cleanRows raw ≠ [] →
      ∃ rows a b, load_mockup_flood_dataset raw s e = Except.ok (rows, a, b) ∧
        ∃ sum, run_pipeline raw s e minSamples src = Except.ok sum ∧
          (build_province_risk_geodata rows minSamples src = [] →
            sum.province_points = 0 ∧ sum.rows_inserted = 0))
    ∧ (cleanRows raw = [] →
        run_pipeline raw s e minSamples src = Except.error
          "TypeError: unsupported operand type for -: float and datetime.timedelta") := by
  constructor
  · intro hne
    obtain ⟨rows, a, b, hload⟩ := load_ok_of_ne_nil raw s e hne
    refine ⟨rows, a, b, hload,
      { dataset := src
        start_date := a
        end_date := b
        records_used := rows.length
        province_points := (build_province_risk_geodata rows minSamples src).length
        rows_inserted := save_flood_events_to_postgis
          (build_province_risk_geodata rows minSamples src)
        flood_geojson := "flood_risk_" ++ toString a ++ "_" ++
          toString b ++ ".geojson" },
      ?_, ?_⟩
    · simp [run_pipeline, hload]
    · intro hb0
      simp [hb0, save_flood_events_to_postgis]
  · intro hemp
    simp [run_pipeline, load_mockup_flood_dataset, hemp]

/-- C7 counterexample: one usable row, threshold 2 — zero regions
survive, there is nothing to persist, and yet `run_pipeline` returns a
successful summary (0 points, 0 rows inserted) instead of failing. -/
theorem c7_counterexample :
    run_pipeline exRaw10 10 10 2 "ds" =
      Except.ok { dataset := "ds"
                  start_date := 10
                  end_date := 10
                  records_used := 1
                  province_points := 0
                  rows_inserted := 0
                  flood_geojson := "flood_risk_10_10.geojson" }
    ∧ load_mockup_flood_dataset exRaw10 10 10 =
        Except.ok (cleanRows exRaw10, 10, 10)
    ∧ build_province_risk_geodata (cleanRows exRaw10) 2 "ds" = [] := by
  with_unfolding_all decide

/-- C7 witness: both branches at concrete inputs — the one-row dataset
is nonempty and its run succeeds with an empty persisted set, and the
empty dataset makes the run fail with the loader TypeError. -/
theorem c7_witness :
    cleanRows exRaw10 ≠ []
    ∧ (∃ rows a b, load_mockup_flood_dataset exRaw10 10 10 = Except.ok (rows, a, b) ∧
        ∃ sum, run_pipeline exRaw10 10 10 2 "ds" = Except.ok sum ∧
          (build_province_risk_geodata rows 2 "ds" = [] →
            sum.province_points = 0 ∧ sum.rows_inserted = 0))
    ∧ cleanRows ([] : List RawRow) = []
    ∧ run_pipeline ([] : List RawRow) 10 10 2 "ds" = Except.error
        "TypeError: unsupported operand type for -: float and datetime.timedelta" :=
  ⟨by with_unfolding_all decide,
   (c7_empty_result_still_succeeds exRaw10 10 10 2 "ds").1
     (by with_unfolding_all decide),
   rfl,
   (c7_empty_result_still_succeeds ([] : List RawRow) 10 10 2 "ds").2 rfl⟩

/-- C8: the color mapper clamps its input to `[0, 1]` first, then
interpolates piecewise-linearly over the fixed anchors, hitting every
anchor color exactly; it is total on all (finite) rational inputs. -/
theorem c8_color_mapper :
    _risk_to_rgb 0 = (245, 240, 24)
    ∧ _risk_to_rgb (1/2) = (42, 201, 92)
    ∧ _risk_to_rgb 1 = (120, 76, 190)
    ∧ _risk_to_rgb (-5) = _risk_to_rgb 0
    ∧ _risk_to_rgb (1/4) = (122, 233, 28)
    ∧ _risk_to_rgb (3/4) = (64, 150, 205)
    ∧ ∀ x : ℚ, _risk_to_rgb x = _risk_to_rgb (max 0 (min 1 x)) := by
  refine ⟨by with_unfolding_all decide, by with_unfolding_all decide,
    by with_unfolding_all decide, by with_unfolding_all decide,
    by with_unfolding_all decide, by with_unfolding_all decide, ?_⟩
  intro x
  unfold _risk_to_rgb
  congr 1
  have h0 : (0:ℚ) ≤ max 0 (min 1 x) := le_max_left _ _
  have h1 : max 0 (min 1 x) ≤ 1 := max_le zero_le_one (min_le_left _ _)
  rw [min_eq_right h1, max_eq_right h0]

/-- C5: the water index at each in-range pixel is
`(green - swir) / (green + swir + 1e-6)` and the binary mask is 1 exactly
when the index exceeds the threshold and the data mask is positive. -/
theorem c5_index_and_mask (green swir dmask : Grid) (thr : ℚ) (i j : ℕ)
    (hig : i < green.length) (his : i < swir.length) (hid : i < dmask.length)
    (hjg : j < (green.getD i []).length) (hjs : j < (swir.getD i []).length)
    (hjd : j < (dmask.getD i []).length) :
    gridAt (compute_mndwi green swir) i j =
      (gridAt green i j - gridAt swir i j) /
        (gridAt green i j + gridAt swir i j + epsM)
    ∧ maskAt (waterMask green swir dmask thr) i j =
        (if thr < gridAt (compute_mndwi green swir) i j
            ∧ 0 < gridAt dmask i j then 1 else 0) := by
  have hrow : (compute_mndwi green swir).getD i [] =
      List.zipWith (fun g s => (g - s) / (g + s + epsM))
        (green.getD i []) (swir.getD i []) := by
    unfold compute_mndwi
    exact zipWith_getD _ green swir i hig his [] [] []
  have hmnd : gridAt (compute_mndwi green swir) i j =
      (gridAt green i j - gridAt swir i j) /
        (gridAt green i j + gridAt swir i j + epsM) := by
    unfold gridAt
    rw [hrow]
    exact zipWith_getD _ _ _ j hjg hjs 0 0 0
  refine ⟨hmnd, ?_⟩
  have hmlen : i < (compute_mndwi green swir).length := by
    unfold compute_mndwi
    rw [List.length_zipWith]
    exact lt_min hig his
  have hmrowlen : j < ((compute_mndwi green swir).getD i []).length := by
    rw [hrow, List.length_zipWith]
    exact lt_min hjg hjs
  have hwrow : (waterMask green swir dmask thr).getD i [] =
      List.zipWith (fun m d => if thr < m ∧ 0 < d then 1 else 0)
        ((compute_mndwi green swir).getD i []) (dmask.getD i []) := by
    unfold waterMask
    exact zipWith_getD _ _ _ i hmlen hid [] [] []
  unfold maskAt
  rw [hwrow, zipWith_getD _ _ _ j hmrowlen hjd 0 0 0]
  rfl

/-- C5 witness: a concrete 1-pixel check of the index formula and the
mask rule on the all-dry raster. -/
theorem c5_witness :
    (0 < exGreen0.length ∧ 0 < (exGreen0.getD 0 []).length)
    ∧ (gridAt (compute_mndwi exGreen0 exSwir1) 0 0 =
        (gridAt exGreen0 0 0 - gridAt exSwir1 0 0) /
          (gridAt exGreen0 0 0 + gridAt exSwir1 0 0 + epsM)
      ∧ maskAt (waterMask exGreen0 exSwir1 exDmask1 0) 0 0 =
          (if (0:ℚ) < gridAt (compute_mndwi exGreen0 exSwir1) 0 0
              ∧ 0 < gridAt exDmask1 0 0 then 1 else 0)) :=
  ⟨⟨by decide, by decide⟩,
   c5_index_and_mask exGreen0 exSwir1 exDmask1 0 0 0 (by decide) (by decide)
     (by decide) (by decide) (by decide) (by decide)⟩

theorem rowTrue_eq_nil {row : List ℕ} (h : ∀ v ∈ row, v ≠ 1) (i j : ℕ) :
    rowTrue i j row = [] := by
  induction row generalizing j with
  | nil => rfl
  | cons v vs ih =>
    simp only [rowTrue, if_neg (h v (List.mem_cons_self _ _)), List.nil_append]
    exact ih (fun u hu => h u (List.mem_cons_of_mem _ hu)) _

theorem maskTruePositions_eq_nil {w : List (List ℕ)}
    (h : ∀ row ∈ w, ∀ v ∈ row, v ≠ 1) (i : ℕ) :
    maskTruePositions i w = [] := by
  induction w generalizing i with
  | nil => rfl
  | cons row rows ih =>
    simp only [maskTruePositions]
    rw [rowTrue_eq_nil (h row (List.mem_cons_self _ _)),
      ih (fun r hr => h r (List.mem_cons_of_mem _ hr))]
    rfl

/-- C6: when no pixel passes the water-mask test, `extract` returns the
empty polygon set with the full output schema — a valid empty result, not
an error (the embedding is a total function). -/
theorem c6_empty_mask_empty_frame (green swir dmask : Grid)
    (thr minArea pixArea : ℚ) (src : String)
    (h : ∀ row ∈ waterMask green swir dmask thr, ∀ v ∈ row, v ≠ 1) :
    extract_flood_polygons green swir dmask thr minArea pixArea src =
      ([], fullPolySchema) := by
  simp only [extract_flood_polygons]
  rw [maskTruePositions_eq_nil h 0]
  rfl

/-- C6 witness: the all-dry 2x2 raster has an all-zero mask and extracts
to the schema-complete empty frame. -/
theorem c6_witness :
    (∀ row ∈ waterMask exGreen0 exSwir1 exDmask1 0, ∀ v ∈ row, v ≠ 1)
    ∧ extract_flood_polygons exGreen0 exSwir1 exDmask1 0 0 1 "r" =
        ([], fullPolySchema) :=
  ⟨by with_unfolding_all decide,
   c6_empty_mask_empty_frame exGreen0 exSwir1 exDmask1 0 0 1 "r"
     (by with_unfolding_all decide)⟩

theorem _minmax_numeric_length (xs : List FVal) :
    (_minmax_numeric xs).length = xs.length := by
  simp only [_minmax_numeric]
  split <;> simp

/-- C9: each event's risk score is
`clip(0.42*norm(water) + 0.30*norm(rainfall) + 0.15*flood_flag
+ 0.08*norm(humidity) + 0.05*norm(temperature))`, the normalizations
taken over the whole surviving batch, clipped after summation. -/
theorem c9_event_risk_formula (raw : List RawRow) (i : ℕ)
    (hi : i < (eventLevelRows raw).length) :
    (eventRiskColumn (eventLevelRows raw)).getD i none =
      fclip01 (fadd (fadd (fadd (fadd
        (fmul (some (0.42:ℚ))
          ((_minmax_numeric ((eventLevelRows raw).map
            (fun r => some r.water_level_m))).getD i none))
        (fmul (some (0.30:ℚ))
          ((_minmax_numeric ((eventLevelRows raw).map
            (fun r => some r.rainfall_mm))).getD i none)))
        (fmul (some (0.15:ℚ))
          (((eventLevelRows raw).map (fun r => some r.is_flood)).getD i none)))
        (fmul (some (0.08:ℚ))
          ((_minmax_numeric ((eventLevelRows raw).map
            (fun r => r.humidity_percent))).getD i none)))
        (fmul (some (0.05:ℚ))
          ((_minmax_numeric ((eventLevelRows raw).map
            (fun r => r.temperature_c))).getD i none))) := by
  unfold eventRiskColumn
  exact zipWith5_getD eventRiskFormula _ _ _ _ _ i
    (by rw [_minmax_numeric_length, List.length_map]; exact hi)
    (by rw [_minmax_numeric_length, List.length_map]; exact hi)
    (by rw [List.length_map]; exact hi)
    (by rw [_minmax_numeric_length, List.length_map]; exact hi)
    (by rw [_minmax_numeric_length, List.length_map]; exact hi)
    none none none none none none

/-- C9 witness: the index-0 event of the concrete one-row dataset
satisfies the bound and the scored column obeys the formula there. -/
theorem c9_witness :
    0 < (eventLevelRows exRaw10).length
    ∧ (eventRiskColumn (eventLevelRows exRaw10)).getD 0 none =
      fclip01 (fadd (fadd (fadd (fadd
        (fmul (some (0.42:ℚ))
          ((_minmax_numeric ((eventLevelRows exRaw10).map
            (fun r => some r.water_level_m))).getD 0 none))
        (fmul (some (0.30:ℚ))
          ((_minmax_numeric ((eventLevelRows exRaw10).map
            (fun r => some r.rainfall_mm))).getD 0 none)))
        (fmul (some (0.15:ℚ))
          (((eventLevelRows exRaw10).map (fun r => some r.is_flood)).getD 0 none)))
        (fmul (some (0.08:ℚ))
          ((_minmax_numeric ((eventLevelRows exRaw10).map
            (fun r => r.humidity_percent))).getD 0 none)))
        (fmul (some (0.05:ℚ))
          ((_minmax_numeric ((eventLevelRows exRaw10).map
            (fun r => r.temperature_c))).getD 0 none))) :=
  ⟨by with_unfolding_all decide, c9_event_risk_formula exRaw10 0
    (by with_unfolding_all decide)⟩
